import Mathlib

/-!
Shallow embedding of the multi-chain service layer of the
`crypto-network` repository: the network registry
(`src/config/networks.config.ts`), the adapter factory
(`src/factory/BlockchainServiceFactory.ts`), the multi-network balance
aggregation (`BlockchainController.getMultiNetworkBalance`), and the
per-chain adapter operations cited by the claims
(`ArbitrumService`, `TRC20Service`, `RippleService`, `CardanoService`).

JavaScript promises are modelled by sequential evaluation (every
`await`ed call is a pure function of an explicit oracle describing the
remote chain), exceptions by `Except`, object identity by numeric
instance ids allocated by the factory state, and `Promise.allSettled`
fan-out by an independent per-adapter `List.map` (each adapter's entry
is a function of that adapter's behaviour and the query only).
-/

namespace CryptoNet

/-- `NetworkConfig` from `src/types/blockchain.types.ts`; note the
source field is spelled `enable`, not `enabled`. -/
structure NetworkConfig where
  name : String
  rpcUrl : String
  chainId : Option Nat := none
  testnet : Bool := false
  enable : Bool
deriving DecidableEq, Repr

/-- The static registry: the list of `NetworkType` enum values (the cases
of the factory's `switch`, in declaration order, which is also the
iteration order of `Object.values(NetworkType)`), together with the
`NETWORK_CONFIGS` record. The record is total on the enum; the factory
throws on any other string before ever reading the config. -/
structure Registry where
  known : List String
  configs : String → NetworkConfig

/-- A fallback config for strings outside the enum; the factory never
reads it because the `switch` default throws first. -/
def missingConfig : NetworkConfig :=
  { name := "", rpcUrl := "", enable := false }

/-- `NETWORK_CONFIGS` plus the `NetworkType` enum of the source, with
the `enable` flags exactly as committed (only `trc20` is enabled). -/
def theRegistry : Registry where
  known := ["arbitrum", "ton", "solana", "ripple",
            "polygon", "avalanche", "cardano", "trc20"]
  configs := fun n =>
    if n = "arbitrum" then
      { name := "Arbitrum One", rpcUrl := "https://arb1.arbitrum.io/rpc",
        chainId := some 42161, enable := false }
    else if n = "ton" then
      { name := "TON Mainnet", rpcUrl := "https://toncenter.com/api/v2/jsonRPC",
        enable := false }
    else if n = "solana" then
      { name := "Solana Mainnet", rpcUrl := "https://api.mainnet-beta.solana.com",
        enable := false }
    else if n = "ripple" then
      { name := "XRPL Mainnet", rpcUrl := "wss://xrplcluster.com",
        enable := false }
    else if n = "polygon" then
      { name := "Polygon Mainnet", rpcUrl := "https://polygon-rpc.com",
        chainId := some 137, enable := false }
    else if n = "avalanche" then
      { name := "Avalanche C-Chain", rpcUrl := "https://api.avax.network/ext/bc/C/rpc",
        chainId := some 43114, enable := false }
    else if n = "cardano" then
      { name := "Cardano Mainnet", rpcUrl := "https://cardano-mainnet.blockfrost.io/api/v0",
        enable := false }
    else if n = "trc20" then
      { name := "Tron Mainnet", rpcUrl := "https://api.trongrid.io",
        enable := true }
    else missingConfig

/-- State of `BlockchainServiceFactory`: the private static `services`
map (network id to instance), plus bookkeeping that makes object
identity and side effects observable in the embedding — `nextId`
allocates a fresh id per `new XService(...)`, `constructLog` records
constructor invocations and `initLog` records `initialize()`
invocations, newest first. -/
structure FactoryState where
  cache : List (String × Nat) := []
  nextId : Nat := 0
  constructLog : List (String × Nat) := []
  initLog : List (String × Nat) := []
deriving DecidableEq, Repr

/-- The factory state at process start: empty cache, no instances. -/
def initialFactoryState : FactoryState := {}

/-- Errors `createService` can throw: the `switch` default
(`Unsupported network type: ...`) or a rejection of `initialize()`. -/
inductive CreateError where
  | unsupported (networkType : String)
  | initFailed (networkType : String)
deriving DecidableEq, Repr

/-- `BlockchainServiceFactory.createService`, with the outcome of a
would-be `initialize()` call supplied by the oracle `initOk` (the
underlying RPC handshake is external I/O). Mirrors the source order:
cache lookup, config lookup, `switch` on the network type (constructing
the service or throwing on the default branch), then
`if (config.enable) { await service.initialize(); this.services.set(...) }`
and `return service`. A failed `initialize` propagates and nothing is
cached; a disabled network's instance is returned uninitialized and
uncached. -/
def createService (R : Registry) (initOk : Bool) (networkType : String)
    (s : FactoryState) : Except CreateError Nat × FactoryState :=
  match List.lookup networkType s.cache with
  | some id => (Except.ok id, s)
  | none =>
    let config := R.configs networkType
    if networkType ∈ R.known then
      let id := s.nextId
      let s1 : FactoryState :=
        { s with nextId := s.nextId + 1,
                 constructLog := (networkType, id) :: s.constructLog }
      if config.enable then
        let s2 : FactoryState :=
          { s1 with initLog := (networkType, id) :: s1.initLog }
        if initOk then
          (Except.ok id, { s2 with cache := (networkType, id) :: s2.cache })
        else
          (Except.error (CreateError.initFailed networkType), s2)
      else
        (Except.ok id, s1)
    else
      (Except.error (CreateError.unsupported networkType), s)

/-- Decidable equality of exception-monad results, for evaluating the
factory on concrete inputs. -/
instance {ε α : Type} [DecidableEq ε] [DecidableEq α] :
    DecidableEq (Except ε α) := fun x y =>
  match x, y with
  | Except.ok a, Except.ok b =>
    if h : a = b then isTrue (by rw [h])
    else isFalse (by intro hh; cases hh; exact h rfl)
  | Except.ok _, Except.error _ => isFalse (by intro hh; cases hh)
  | Except.error _, Except.ok _ => isFalse (by intro hh; cases hh)
  | Except.error e, Except.error f =>
    if h : e = f then isTrue (by rw [h])
    else isFalse (by intro hh; cases hh; exact h rfl)

/-- The message of the `switch` default throw in `createService`. -/
def createErrorMessage : CreateError → String
  | CreateError.unsupported n => "Unsupported network type: " ++ n
  | CreateError.initFailed n => n ++ " initialization failed"

/-- The loop body of `getAllServices`: try `createService` for each
network type in turn, pushing successes and logging-and-skipping
failures. -/
def getAllServicesAux (R : Registry) (initOk : String → Bool) :
    List String → FactoryState → List Nat × FactoryState
  | [], s => ([], s)
  | n :: rest, s =>
    match createService R (initOk n) n s with
    | (Except.ok id, s1) =>
      let r := getAllServicesAux R initOk rest s1
      (id :: r.1, r.2)
    | (Except.error _, s1) => getAllServicesAux R initOk rest s1

/-- `BlockchainServiceFactory.getAllServices`: iterates
`Object.values(NetworkType)` (= `R.known`), collecting the services
whose `createService` did not throw. -/
def getAllServices (R : Registry) (initOk : String → Bool)
    (s : FactoryState) : List Nat × FactoryState :=
  getAllServicesAux R initOk R.known s

/-- `BlockchainServiceFactory.getAvailableNetworks`: the static enum
values, independent of live adapter state. -/
def getAvailableNetworks (R : Registry) : List String := R.known

/-! ## Multi-network balance aggregation
(`BlockchainController.getMultiNetworkBalance` in
`src/controllers/blockchain.controller.ts`.) Balances are JS numbers in
the source; they are modelled with exact integer arithmetic. -/

/-- The slice of `WalletInfo` the aggregation reads. -/
structure WalletInfoM where
  address : String
  balance : Int
  nativeToken : String
deriving DecidableEq, Repr

/-- The `status` field of a per-network aggregation entry. -/
inductive BalanceStatus where
  | success
  | invalid_address
  | error
deriving DecidableEq, Repr

/-- Observable behaviour of one adapter as the aggregation sees it:
its network type and configured name, its pure `validateAddress`, and
`getWalletInfo` as a function of the query address (a rejection of the
underlying RPC call is an `Except.error`). -/
structure AdapterBehavior where
  network : String
  networkName : String
  validateAddress : String → Bool
  getWalletInfo : String → Except String WalletInfoM

/-- One element of the `balances` array of
`getMultiNetworkBalance`. -/
structure BalanceEntry where
  network : String
  networkName : String
  address : Option String := none
  balance : Option Int := none
  nativeToken : Option String := none
  status : BalanceStatus
  errMsg : Option String := none
deriving DecidableEq, Repr

/-- The per-adapter callback passed to `services.map` inside
`Promise.allSettled`: validate the address, then either query wallet
info (converting a thrown error into an `error`-status entry via the
inner `catch`) or record an `invalid_address` entry. -/
def balanceEntryFor (address : String) (a : AdapterBehavior) : BalanceEntry :=
  if a.validateAddress address then
    match a.getWalletInfo address with
    | Except.ok w =>
      { network := a.network, networkName := a.networkName,
        address := some w.address, balance := some w.balance,
        nativeToken := some w.nativeToken, status := BalanceStatus.success }
    | Except.error e =>
      { network := a.network, networkName := a.networkName,
        status := BalanceStatus.error, errMsg := some e }
  else
    { network := a.network, networkName := a.networkName,
      status := BalanceStatus.invalid_address,
      errMsg := some "Address format not supported on this network" }

/-- The settled `balances` array: every mapped promise fulfills because
the callback's body is entirely wrapped in `try`/`catch`, so
`Promise.allSettled` yields one fulfilled entry per service. -/
def balancesOf (address : String) (services : List AdapterBehavior) :
    List BalanceEntry :=
  services.map (balanceEntryFor address)

/-- The aggregation report assembled by `getMultiNetworkBalance`. -/
structure AggregateReport where
  successful : List BalanceEntry
  failed : List BalanceEntry
  totalBalance : Int
  totalNetworksChecked : Nat
deriving DecidableEq, Repr

/-- `getMultiNetworkBalance` after the fan-out settles: partition the
entries by `status === 'success'` (the `rejected` branch of the filters
is dead code since every promise fulfills), then
`totalBalance = successful.reduce((sum, item) => sum + item.balance, 0)`. -/
def getMultiNetworkBalance (address : String)
    (services : List AdapterBehavior) : AggregateReport :=
  let balances := balancesOf address services
  let successful :=
    balances.filter (fun e => decide (e.status = BalanceStatus.success))
  let failed :=
    balances.filter (fun e => !decide (e.status = BalanceStatus.success))
  { successful := successful
    failed := failed
    totalBalance := successful.foldl (fun sum item => sum + item.balance.getD 0) 0
    totalNetworksChecked := balances.length }

/-! ## Per-adapter operations cited by the claims -/

/-- `BaseBlockchainService.handleError`: log, then rethrow as
`` `${networkType} ${context} failed: ${error.message}` ``. -/
def handleErrorMsg (networkType context msg : String) : String :=
  networkType ++ " " ++ context ++ " failed: " ++ msg

/-- Status values of a `TransactionResponse`. -/
inductive TxStatus where
  | pending
  | confirmed
  | failed
deriving DecidableEq, Repr

/-- `TransactionResponse` as returned by `getTransactionStatus`
(timestamps omitted: wall-clock reads are irrelevant to the claims). -/
structure TxResponseM where
  hash : String
  status : TxStatus
  blockNumber : Option Int := none
  gasUsed : Option Int := none
  fee : Option Int := none
deriving DecidableEq, Repr

/-- An ethers transaction object, as far as `getTransactionStatus`
reads it. -/
structure ArbTx where
  gasPrice : Option Int := none
deriving DecidableEq, Repr

/-- An ethers transaction receipt; `status` is `1` on success. -/
structure ArbReceipt where
  status : Nat
  blockNumber : Int
  gasUsed : Int
  gasPrice : Option Int := none
deriving DecidableEq, Repr

/-- The Arbitrum RPC node as `getTransactionStatus` queries it:
`provider.getTransaction` / `provider.getTransactionReceipt` return
`null` (here `none`) for an identifier the chain does not know, and may
themselves reject (transport failure). -/
structure ArbChain where
  getTransaction : String → Except String (Option ArbTx)
  getTransactionReceipt : String → Except String (Option ArbReceipt)

/-- `ArbitrumService.getTransactionStatus`: a `null` transaction yields
a `failed` response; a present receipt yields `confirmed`/`failed` from
`receipt.status === 1` with the fee computed from gas used times the
effective gas price; a missing receipt yields `pending`; any thrown RPC
error is rethrown by `handleError`. (The source converts the wei fee to
ether with float arithmetic; the embedding keeps the wei integer.) -/
def arbitrumGetTransactionStatus (c : ArbChain) (hash : String) :
    Except String TxResponseM :=
  match c.getTransaction hash with
  | Except.error e =>
    Except.error (handleErrorMsg "arbitrum" "getTransactionStatus" e)
  | Except.ok none => Except.ok { hash := hash, status := TxStatus.failed }
  | Except.ok (some tx) =>
    match c.getTransactionReceipt hash with
    | Except.error e =>
      Except.error (handleErrorMsg "arbitrum" "getTransactionStatus" e)
    | Except.ok (some receipt) =>
      Except.ok
        { hash := hash
          status := if receipt.status = 1 then TxStatus.confirmed else TxStatus.failed
          blockNumber := some receipt.blockNumber
          gasUsed := some receipt.gasUsed
          fee := some (receipt.gasUsed * (receipt.gasPrice.getD (tx.gasPrice.getD 0))) }
    | Except.ok none => Except.ok { hash := hash, status := TxStatus.pending }

/-- A TronWeb transaction object; the source tests `!transaction.txID`. -/
structure TronTx where
  txID : Option String := none
deriving DecidableEq, Repr

/-- A TronWeb `getTransactionInfo` result. -/
structure TronTxInfo where
  id : Option String := none
  result : Option String := none
  blockNumber : Option Int := none
  fee : Option Int := none
  energyUsage : Option Int := none
deriving DecidableEq, Repr

/-- The Tron node as `getTransactionStatus` queries it; an unknown
identifier makes `trx.getTransaction` return an empty object, modelled
as `ok none`. -/
structure TronChain where
  getTransaction : String → Except String (Option TronTx)
  getTransactionInfo : String → Except String TronTxInfo

/-- `TRC20Service.getTransactionStatus`: a missing transaction (or one
without a `txID`) yields a `failed` response; otherwise the status comes
from `transactionInfo`: `pending` until `transactionInfo.id` exists,
then `confirmed` iff `transactionInfo.result === 'SUCCESS'`. Thrown RPC
errors are rethrown by `handleError`. -/
def trc20GetTransactionStatus (c : TronChain) (hash : String) :
    Except String TxResponseM :=
  match c.getTransaction hash with
  | Except.error e =>
    Except.error (handleErrorMsg "trc20" "getTransactionStatus" e)
  | Except.ok none => Except.ok { hash := hash, status := TxStatus.failed }
  | Except.ok (some transaction) =>
    match transaction.txID with
    | none => Except.ok { hash := hash, status := TxStatus.failed }
    | some _ =>
      match c.getTransactionInfo hash with
      | Except.error e =>
        Except.error (handleErrorMsg "trc20" "getTransactionStatus" e)
      | Except.ok info =>
        let status :=
          match info.id with
          | some _ =>
            if info.result = some "SUCCESS" then TxStatus.confirmed
            else TxStatus.failed
          | none => TxStatus.pending
        Except.ok
          { hash := hash, status := status, blockNumber := info.blockNumber,
            gasUsed := info.energyUsage, fee := info.fee }

/-- An XRPL `tx` command result, as far as `getTransactionStatus`
reads it. -/
structure RippleTxM where
  validated : Bool
  ledgerIndex : Option Int := none
  fee : Option Int := none
deriving DecidableEq, Repr

/-- The XRPL node: the set of transactions it knows. -/
structure RippleChain where
  knownTx : String → Option RippleTxM

/-- The xrpl client's `request({command: 'tx', ...})`: the library
rejects the promise with a `txnNotFound` error when the ledger does not
know the identifier. -/
def rippleRequestTx (c : RippleChain) (hash : String) :
    Except String RippleTxM :=
  match c.knownTx hash with
  | none => Except.error "txnNotFound"
  | some t => Except.ok t

/-- `RippleService.getTransactionStatus`: `confirmed` iff
`result.validated`, else `pending`; the whole body is wrapped in
`try`/`catch` whose handler is `handleError`, which rethrows, so a
`txnNotFound` rejection surfaces as a thrown error. -/
def rippleGetTransactionStatus (c : RippleChain) (hash : String) :
    Except String TxResponseM :=
  match rippleRequestTx c hash with
  | Except.error e =>
    Except.error (handleErrorMsg "ripple" "getTransactionStatus" e)
  | Except.ok t =>
    Except.ok
      { hash := hash
        status := if t.validated then TxStatus.confirmed else TxStatus.pending
        blockNumber := t.ledgerIndex
        fee := t.fee }

/-! ## validateAddress (claim C8) -/

/-- JS `try { body } catch (e) { handler }` in the exception monad. -/
def tryCatchE {ε α : Type} (body : Except ε α) (handler : ε → Except ε α) :
    Except ε α :=
  match body with
  | Except.ok v => Except.ok v
  | Except.error e => handler e

/-- `ArbitrumService.validateAddress`:
`try { return ethers.isAddress(address) } catch { return false }`.
The library predicate is an oracle that may itself throw. -/
def arbitrumValidateAddress (isAddress : String → Except String Bool)
    (address : String) : Except String Bool :=
  tryCatchE (isAddress address) (fun _ => Except.ok false)

/-- `TRC20Service.validateAddress`:
`try { return this.tronWeb.isAddress(address) } catch { return false }`. -/
def trc20ValidateAddress (isAddress : String → Except String Bool)
    (address : String) : Except String Bool :=
  tryCatchE (isAddress address) (fun _ => Except.ok false)

/-- Character class `[1-9A-HJ-NP-Za-km-z]` of the XRP fallback regex. -/
def xrpBodyChar (c : Char) : Bool :=
  (decide ('1' ≤ c) && decide (c ≤ '9')) ||
  (decide ('A' ≤ c) && decide (c ≤ 'H')) ||
  (decide ('J' ≤ c) && decide (c ≤ 'N')) ||
  (decide ('P' ≤ c) && decide (c ≤ 'Z')) ||
  (decide ('a' ≤ c) && decide (c ≤ 'k')) ||
  (decide ('m' ≤ c) && decide (c ≤ 'z'))

/-- The XRP fallback regex test of the source,
`/^r[1-9A-HJ-NP-Za-km-z]\x7b25,34\x7d$/.test(address)`: a leading `r`
followed by 25 to 34 base58 characters. -/
def xrpRegexTest (address : String) : Bool :=
  match address.data with
  | [] => false
  | c :: rest =>
    decide (c = 'r') && decide (25 ≤ rest.length) &&
      decide (rest.length ≤ 34) && rest.all xrpBodyChar

/-- `RippleService.validateAddress`:
`try { return isValidAddress(address) } catch { ... regex test ... }`. -/
def rippleValidateAddress (isValidAddr : String → Except String Bool)
    (address : String) : Except String Bool :=
  tryCatchE (isValidAddr address) (fun _ => Except.ok (xrpRegexTest address))

/-! ## createWallet (claim C9)

The cryptographic libraries (bip39, cardano-serialization-lib,
xrpl, ed25519-hd-key) are pure deterministic functions abstracted as
oracle fields; fresh entropy consumed by `generateMnemonic()` /
`Wallet.generate()` is an explicit per-call parameter. Derivation paths
are modelled as their list of child indices (the source builds the
equivalent string, with hardened components marked). -/

/-- `CreateWalletOptions` (the fields Cardano/Ripple read). -/
structure CreateWalletOptionsM where
  mnemonic : Option String := none
  derivationPath : Option (List Nat) := none
  index : Option Nat := none
deriving DecidableEq, Repr

/-- `WalletCreationResponse` (the fields Cardano/Ripple set). -/
structure WalletCreationM where
  address : String
  privateKey : Option String := none
  publicKey : Option String := none
  seed : Option String := none
  mnemonic : Option String := none
  network : String
  index : Option Nat := none
  derivationPath : Option (List Nat) := none
deriving DecidableEq, Repr

/-- `CardanoService.harden`. -/
def harden (num : Nat) : Nat := 0x80000000 + num

/-- The Cardano cryptography as `createWalletFromMnemonic` composes it.
`mnemonicToEntropy` throws on an invalid mnemonic; everything else is a
total deterministic function on abstract key handles (`Nat`). -/
structure CardanoLib where
  mnemonicToEntropy : String → Except String (List Nat)
  fromBip39Entropy : List Nat → Nat
  deriveKey : Nat → Nat → Nat
  toRawKey : Nat → Nat
  toPublic : Nat → Nat
  keyHash : Nat → Nat
  baseAddressBech32 : Nat → String
  privHex : Nat → String
  pubHex : Nat → String

/-- The wallet data produced by
`CardanoService.createWalletFromMnemonic`. -/
structure CardanoWalletData where
  privateKey : Nat
  publicKey : Nat
  address : String
deriving DecidableEq, Repr

/-- `CardanoService.createWalletFromMnemonic`: entropy from the
mnemonic, root key from entropy, account key along
`1852'/1815'/0'`, spending key along `0/0`, and a mainnet base address
built from the public key hash (used for both payment and stake
credentials). -/
def createWalletFromMnemonic (lib : CardanoLib) (mnemonic : String) :
    Except String CardanoWalletData :=
  match lib.mnemonicToEntropy mnemonic with
  | Except.error _ => Except.error "Failed to create wallet from mnemonic"
  | Except.ok entropy =>
    let rootKey := lib.fromBip39Entropy entropy
    let accountKey :=
      lib.deriveKey (lib.deriveKey (lib.deriveKey rootKey (harden 1852))
        (harden 1815)) (harden 0)
    let spendingKey := lib.deriveKey (lib.deriveKey accountKey 0) 0
    let privateKey := lib.toRawKey spendingKey
    let publicKey := lib.toPublic privateKey
    Except.ok
      { privateKey := privateKey, publicKey := publicKey,
        address := lib.baseAddressBech32 (lib.keyHash publicKey) }

/-- `CardanoService.createWallet`: use the supplied mnemonic if any,
otherwise `generateMnemonic(256)` — whose fresh entropy sample is the
explicit `freshMnemonic` argument — then derive; `options.index` and
`options.derivationPath` are never read. A derivation failure is
rethrown by `handleError`. -/
def cardanoCreateWallet (lib : CardanoLib) (freshMnemonic : String)
    (options : CreateWalletOptionsM) : Except String WalletCreationM :=
  let mnemonic :=
    match options.mnemonic with
    | some m => m
    | none => freshMnemonic
  match createWalletFromMnemonic lib mnemonic with
  | Except.error e => Except.error (handleErrorMsg "cardano" "createWallet" e)
  | Except.ok walletData =>
    Except.ok
      { address := walletData.address
        privateKey := some (lib.privHex walletData.privateKey)
        publicKey := some (lib.pubHex walletData.publicKey)
        mnemonic := some mnemonic
        network := "cardano" }

/-- An xrpl `Wallet`. -/
structure RWallet where
  address : String
  publicKey : String
  privateKey : String
  seed : Option String := none
deriving DecidableEq, Repr

/-- The Ripple cryptography as `createWallet` composes it:
bip39 `mnemonicToSeedSync` (hex), ed25519-hd-key `derivePath`, xrpl
`Wallet.fromSeed` (throws on a malformed seed), and the two
entropy-consuming generators as functions of the fresh sample. -/
structure RippleLib where
  mnemonicToSeedHex : String → String
  derivePathKeyHex : List Nat → String → String
  fromSeed : String → Except String RWallet
  generateMnemonic : Nat → String
  generateWallet : Nat → RWallet

/-- The chain-canonical default derivation path
`m/44'/144'/index'/0/0` used by `RippleService.createWallet`. -/
def defaultRipplePath (index : Nat) : List Nat :=
  [harden 44, harden 144, harden index, 0, 0]

/-- `RippleService.createWallet`: with a mnemonic and an index, derive
along the (supplied or default) path from the bip39 seed and feed the
derived key to `Wallet.fromSeed`; with only a mnemonic, call
`Wallet.fromSeed` on it directly; with only an index, first generate a
fresh mnemonic, then derive as in the first case; with neither, call
`Wallet.generate()`. `entropy` is the fresh entropy sample the two
generating branches consume. Failures are rethrown by `handleError`. -/
def rippleCreateWallet (lib : RippleLib) (entropy : Nat)
    (options : CreateWalletOptionsM) : Except String WalletCreationM :=
  match options.mnemonic with
  | some mnemonic =>
    match options.index with
    | some usedIndex =>
      let usedPath := options.derivationPath.getD (defaultRipplePath usedIndex)
      let seed := lib.mnemonicToSeedHex mnemonic
      let derivedSeed := lib.derivePathKeyHex usedPath seed
      match lib.fromSeed derivedSeed with
      | Except.error e => Except.error (handleErrorMsg "ripple" "createWallet" e)
      | Except.ok w =>
        Except.ok
          { address := w.address, seed := w.seed,
            publicKey := some w.publicKey, privateKey := some w.privateKey,
            mnemonic := some mnemonic, network := "ripple",
            index := some usedIndex, derivationPath := some usedPath }
    | none =>
      match lib.fromSeed mnemonic with
      | Except.error e => Except.error (handleErrorMsg "ripple" "createWallet" e)
      | Except.ok w =>
        Except.ok
          { address := w.address, seed := w.seed,
            publicKey := some w.publicKey, privateKey := some w.privateKey,
            mnemonic := some mnemonic, network := "ripple" }
  | none =>
    match options.index with
    | some usedIndex =>
      let mnemonic := lib.generateMnemonic entropy
      let usedPath := options.derivationPath.getD (defaultRipplePath usedIndex)
      let seed := lib.mnemonicToSeedHex mnemonic
      let derivedSeed := lib.derivePathKeyHex usedPath seed
      match lib.fromSeed derivedSeed with
      | Except.error e => Except.error (handleErrorMsg "ripple" "createWallet" e)
      | Except.ok w =>
        Except.ok
          { address := w.address, seed := w.seed,
            publicKey := some w.publicKey, privateKey := some w.privateKey,
            mnemonic := some mnemonic, network := "ripple",
            index := some usedIndex, derivationPath := some usedPath }
    | none =>
      let w := lib.generateWallet entropy
      Except.ok
        { address := w.address, seed := w.seed,
          publicKey := some w.publicKey, privateKey := some w.privateKey,
          mnemonic := none, network := "ripple" }

/-! ## Helper lemmas -/

/-- Filtering a list by a predicate and by its negation splits its
length exactly. -/
theorem length_filter_split {α : Type} (p : α → Bool) (l : List α) :
    (l.filter p).length + (l.filter (fun a => !p a)).length = l.length := by
  induction l with
  | nil => rfl
  | cons a t ih =>
    cases h : p a <;> simp [List.filter_cons, h] <;> omega

/-- A second filter distributes over the success/failure split. -/
theorem length_filter_filter_split {α : Type} (p q : α → Bool) (l : List α) :
    ((l.filter p).filter q).length
      + ((l.filter (fun a => !p a)).filter q).length
      = (l.filter q).length := by
  induction l with
  | nil => rfl
  | cons a t ih =>
    cases hp : p a <;> cases hq : q a <;>
      (simp [List.filter_cons, hp, hq] at ih ⊢; omega)

/-- The per-adapter callback always tags its entry with the adapter's
own network id. -/
theorem balanceEntryFor_network (address : String) (a : AdapterBehavior) :
    (balanceEntryFor address a).network = a.network := by
  unfold balanceEntryFor
  cases h : a.validateAddress address
  · rfl
  · cases a.getWalletInfo address <;> rfl

/-- Counting entries of a given network in the settled array equals
counting adapters of that network among the services. -/
theorem length_filter_balancesOf (address : String)
    (services : List AdapterBehavior) (n : String) :
    ((balancesOf address services).filter
        (fun e => decide (e.network = n))).length
      = (services.filter (fun a => decide (a.network = n))).length := by
  induction services with
  | nil => rfl
  | cons a t ih =>
    simp only [balancesOf, List.map_cons, List.filter_cons,
      balanceEntryFor_network]
    cases h : decide (a.network = n) <;> simp [balancesOf] at ih ⊢ <;>
      omega

/-- In a list whose image under `f` has no duplicates, each member is
the unique element sharing its `f`-value. -/
theorem length_filter_eq_one_of_nodup_map {α β : Type} [DecidableEq β]
    (f : α → β) (l : List α) (hnd : (l.map f).Nodup) (a : α) (ha : a ∈ l) :
    (l.filter (fun x => decide (f x = f a))).length = 1 := by
  induction l with
  | nil => exact absurd ha (List.not_mem_nil a)
  | cons c t ih =>
    simp only [List.map_cons, List.nodup_cons] at hnd
    rcases List.mem_cons.mp ha with hac | hat
    · have hnil : t.filter (fun x => decide (f x = f a)) = [] := by
        apply List.filter_eq_nil_iff.mpr
        intro x hx
        simp only [decide_eq_true_eq]
        intro hfx
        apply hnd.1
        rw [← hac, ← hfx]
        exact List.mem_map_of_mem f hx
      have hca : f c = f a := by rw [hac]
      simp [List.filter_cons, hca, hnil]
    · have hne : ¬ f c = f a := by
        intro he
        exact hnd.1 (he ▸ List.mem_map_of_mem f hat)
      simp [List.filter_cons, hne, ih hnd.2 hat]

/-- Reducing with integer addition from an accumulator is the
accumulator plus the sum of the mapped balances. -/
theorem foldl_balance_eq_sum (l : List BalanceEntry) (init : Int) :
    l.foldl (fun sum item => sum + item.balance.getD 0) init
      = init + (l.map (fun e => e.balance.getD 0)).sum := by
  induction l generalizing init with
  | nil => simp
  | cons a t ih => simp [List.foldl_cons, ih]; ring

/-! ## Claim theorems -/

/-- C1. The multi-network aggregation partitions the per-network
results: `successful.length + failed.length` equals the number of
adapters queried, and (when the adapters carry pairwise-distinct
network ids, as those produced by `getAllServices` do) every queried
network contributes exactly one entry across the two partitions — in
particular no network id appears in both and none is dropped. -/
theorem multiNetworkBalance_partition (address : String)
    (services : List AdapterBehavior)
    (hnd : (services.map (fun a => a.network)).Nodup) :
    (getMultiNetworkBalance address services).successful.length
      + (getMultiNetworkBalance address services).failed.length
      = services.length ∧
    ∀ a ∈ services,
      (((getMultiNetworkBalance address services).successful
          ++ (getMultiNetworkBalance address services).failed).filter
        (fun e => decide (e.network = a.network))).length = 1 := by
  constructor
  · show ((balancesOf address services).filter _).length
        + ((balancesOf address services).filter _).length
        = services.length
    rw [length_filter_split]
    simp [balancesOf]
  · intro a ha
    show (((balancesOf address services).filter _ ++
        (balancesOf address services).filter _).filter _).length = 1
    rw [List.filter_append, List.length_append,
      length_filter_filter_split, length_filter_balancesOf]
    have := length_filter_eq_one_of_nodup_map
      (fun a : AdapterBehavior => a.network) services hnd a ha
    exact this

/-- Sample adapter accepting `0xabc` with a 5-unit balance. -/
def adapterA : AdapterBehavior where
  network := "arbitrum"
  networkName := "Arbitrum One"
  validateAddress := fun s => decide (s = "0xabc")
  getWalletInfo := fun s =>
    Except.ok { address := s, balance := 5, nativeToken := "ETH" }

/-- Sample adapter rejecting every address. -/
def adapterB : AdapterBehavior where
  network := "ripple"
  networkName := "XRPL Mainnet"
  validateAddress := fun _ => false
  getWalletInfo := fun _ => Except.error "rpc down"

/-- Sample adapter accepting `0xabc` but throwing on `getWalletInfo`. -/
def adapterC : AdapterBehavior where
  network := "trc20"
  networkName := "Tron Mainnet"
  validateAddress := fun s => decide (s = "0xabc")
  getWalletInfo := fun _ => Except.error "network unreachable"

/-- Witness for C1 at a concrete two-adapter fan-out. -/
theorem multiNetworkBalance_partition_witness :
    (getMultiNetworkBalance "0xabc" [adapterA, adapterB]).successful.length
      + (getMultiNetworkBalance "0xabc" [adapterA, adapterB]).failed.length
      = [adapterA, adapterB].length ∧
    ∀ a ∈ [adapterA, adapterB],
      (((getMultiNetworkBalance "0xabc" [adapterA, adapterB]).successful
          ++ (getMultiNetworkBalance "0xabc" [adapterA, adapterB]).failed).filter
        (fun e => decide (e.network = a.network))).length = 1 :=
  multiNetworkBalance_partition "0xabc" [adapterA, adapterB] (by decide)

/-- C2. Per-adapter outcome mapping and failure isolation: an adapter
whose `validateAddress` rejects the address yields an
`invalid_address` (not `error`) entry; an adapter whose
`getWalletInfo` throws yields an `error` entry; the settled array is
the independent per-adapter map, so a throwing adapter contributes
exactly its own single entry and every sibling that validates and
answers successfully still lands in the `successful` partition. -/
theorem aggregation_error_isolation (address : String) (a : AdapterBehavior)
    (s1 s2 : List AdapterBehavior) :
    (a.validateAddress address = false →
      (balanceEntryFor address a).status = BalanceStatus.invalid_address) ∧
    (∀ msg, a.validateAddress address = true →
      a.getWalletInfo address = Except.error msg →
      (balanceEntryFor address a).status = BalanceStatus.error) ∧
    balancesOf address (s1 ++ a :: s2)
      = balancesOf address s1
        ++ balanceEntryFor address a :: balancesOf address s2 ∧
    (∀ b ∈ s1 ++ s2, ∀ w, b.validateAddress address = true →
      b.getWalletInfo address = Except.ok w →
      (balanceEntryFor address b).status = BalanceStatus.success ∧
      balanceEntryFor address b
        ∈ (getMultiNetworkBalance address (s1 ++ a :: s2)).successful) := by
  refine ⟨?_, ?_, ?_, ?_⟩
  · intro h
    unfold balanceEntryFor
    rw [h]
    rfl
  · intro msg hv hw
    unfold balanceEntryFor
    rw [hv, hw]
    rfl
  · simp [balancesOf]
  · intro b hb w hv hw
    have hst : (balanceEntryFor address b).status = BalanceStatus.success := by
      unfold balanceEntryFor
      rw [hv, hw]
      rfl
    refine ⟨hst, ?_⟩
    show balanceEntryFor address b ∈ (balancesOf address (s1 ++ a :: s2)).filter _
    apply List.mem_filter.mpr
    constructor
    · apply List.mem_map_of_mem
      rcases List.mem_append.mp hb with h1 | h2
      · exact List.mem_append.mpr (Or.inl h1)
      · exact List.mem_append.mpr (Or.inr (List.mem_cons_of_mem a h2))
    · simp [hst]

/-- Witness for C2: a validating-and-succeeding adapter, a rejecting
adapter, and a throwing adapter. -/
theorem aggregation_error_isolation_witness :
    (balanceEntryFor "0xabc" adapterB).status = BalanceStatus.invalid_address ∧
    (balanceEntryFor "0xabc" adapterC).status = BalanceStatus.error ∧
    (balanceEntryFor "0xabc" adapterA).status = BalanceStatus.success ∧
    balanceEntryFor "0xabc" adapterA
      ∈ (getMultiNetworkBalance "0xabc" [adapterA, adapterC]).successful :=
  ⟨(aggregation_error_isolation "0xabc" adapterB [] []).1 (by decide),
   (aggregation_error_isolation "0xabc" adapterC [] []).2.1
     "network unreachable" (by decide) rfl,
   ((aggregation_error_isolation "0xabc" adapterC [adapterA] []).2.2.2
     adapterA (by simp)
     { address := "0xabc", balance := 5, nativeToken := "ETH" }
     (by decide) rfl).1,
   ((aggregation_error_isolation "0xabc" adapterC [adapterA] []).2.2.2
     adapterA (by simp)
     { address := "0xabc", balance := 5, nativeToken := "ETH" }
     (by decide) rfl).2⟩

/-- C3. `totalBalance` is the arithmetic sum of the `balance` fields of
the `successful` partition only; any two aggregations with the same
`successful` partition (however their `failed` partitions differ) have
the same `totalBalance`. -/
theorem totalBalance_successful_only (address : String)
    (services : List AdapterBehavior) :
    (getMultiNetworkBalance address services).totalBalance
      = ((getMultiNetworkBalance address services).successful.map
          (fun e => e.balance.getD 0)).sum ∧
    ∀ services' : List AdapterBehavior,
      (getMultiNetworkBalance address services).successful
        = (getMultiNetworkBalance address services').successful →
      (getMultiNetworkBalance address services).totalBalance
        = (getMultiNetworkBalance address services').totalBalance := by
  have key : ∀ l : List AdapterBehavior,
      (getMultiNetworkBalance address l).totalBalance
        = ((getMultiNetworkBalance address l).successful.map
            (fun e => e.balance.getD 0)).sum := by
    intro l
    show List.foldl _ 0 _ = _
    rw [foldl_balance_eq_sum]
    simp [getMultiNetworkBalance]
  refine ⟨key services, ?_⟩
  intro services' hsucc
  rw [key services, key services', hsucc]

/-- Witness for C3: the throwing adapter `adapterC` is replaced by the
rejecting adapter `adapterB` in the failed partition without changing
`totalBalance`. -/
theorem totalBalance_successful_only_witness :
    (getMultiNetworkBalance "0xabc" [adapterA, adapterC]).totalBalance
      = ((getMultiNetworkBalance "0xabc" [adapterA, adapterC]).successful.map
          (fun e => e.balance.getD 0)).sum ∧
    (getMultiNetworkBalance "0xabc" [adapterA, adapterC]).totalBalance
      = (getMultiNetworkBalance "0xabc" [adapterA, adapterB]).totalBalance :=
  ⟨(totalBalance_successful_only "0xabc" [adapterA, adapterC]).1,
   (totalBalance_successful_only "0xabc" [adapterA, adapterC]).2
     [adapterA, adapterB] (by decide)⟩

/-! ## Factory claims -/

/-- The four-network scenario of claim C4: four configured networks,
exactly one of them (`arbitrum`) with `enable = false`, all others
constructible. -/
def fourRegistry : Registry where
  known := ["arbitrum", "solana", "ripple", "trc20"]
  configs := fun n =>
    if n = "arbitrum" then
      { name := "Arbitrum One", rpcUrl := "rpc-a", enable := false }
    else if n = "solana" then
      { name := "Solana Mainnet", rpcUrl := "rpc-s", enable := true }
    else if n = "ripple" then
      { name := "XRPL Mainnet", rpcUrl := "rpc-r", enable := true }
    else if n = "trc20" then
      { name := "Tron Mainnet", rpcUrl := "rpc-t", enable := true }
    else missingConfig

/-- C4, counterexample. With four configured networks, one disabled and
every `initialize` succeeding, `getAllServices` returns four adapters,
not at most three: a disabled network's `createService` returns the
constructed (uninitialized, uncached) instance rather than throwing, so
`getAllServices` pushes it too. -/
theorem getAllServices_disabled_counterexample :
    ¬ ((getAllServices fourRegistry (fun _ => true)
          initialFactoryState).1.length ≤ 3) ∧
    (getAllServices fourRegistry (fun _ => true)
        initialFactoryState).1.length = 4 ∧
    getAvailableNetworks fourRegistry
      = ["arbitrum", "solana", "ripple", "trc20"] := by
  refine ⟨by decide, by decide, rfl⟩

/-- On a network already known to the factory whose `initialize`
succeeds when invoked, `createService` returns an instance. -/
theorem createService_ok_of_initOk (R : Registry) (n : String)
    (s : FactoryState) (hk : n ∈ R.known) :
    ∃ id s1, createService R true n s = (Except.ok id, s1) := by
  unfold createService
  cases hc : List.lookup n s.cache with
  | some id => exact ⟨id, s, rfl⟩
  | none =>
    simp only [hk, if_true]
    cases he : (R.configs n).enable <;> simp

/-- Every network of the iterated list contributes exactly one adapter
to the accumulated result when all `initialize` calls succeed. -/
theorem getAllServicesAux_length (R : Registry) (initOk : String → Bool)
    (l : List String) (hsub : ∀ n ∈ l, n ∈ R.known)
    (hok : ∀ n ∈ l, initOk n = true) :
    ∀ s : FactoryState, ((getAllServicesAux R initOk l s).1).length = l.length := by
  induction l with
  | nil => intro s; rfl
  | cons n rest ih =>
    intro s
    have hkn : n ∈ R.known := hsub n (List.mem_cons_self n rest)
    obtain ⟨id, s1, he⟩ := createService_ok_of_initOk R n s hkn
    have hoks : initOk n = true := hok n (List.mem_cons_self n rest)
    simp only [getAllServicesAux, hoks, he, List.length_cons]
    rw [ih (fun m hm => hsub m (List.mem_cons_of_mem n hm))
        (fun m hm => hok m (List.mem_cons_of_mem n hm)) s1]

/-- C4, amended: when every configured network's `initialize` succeeds
when invoked, `getAllServices` starting from the empty cache returns
one adapter per configured network — disabled networks included, since
their `createService` returns an uninitialized, uncached instance
rather than throwing — and `getAvailableNetworks` independently returns
the full static list. (Only a network whose construction or
initialization throws is omitted.) -/
theorem getAllServices_includes_disabled (R : Registry)
    (initOk : String → Bool) (hok : ∀ n ∈ R.known, initOk n = true) :
    (getAllServices R initOk initialFactoryState).1.length = R.known.length ∧
    getAvailableNetworks R = R.known :=
  ⟨getAllServicesAux_length R initOk R.known (fun _ h => h) hok
      initialFactoryState,
   rfl⟩

/-- Witness for the amended C4 at the four-network scenario. -/
theorem getAllServices_includes_disabled_witness :
    (getAllServices fourRegistry (fun _ => true)
        initialFactoryState).1.length = fourRegistry.known.length ∧
    getAvailableNetworks fourRegistry = fourRegistry.known :=
  getAllServices_includes_disabled fourRegistry (fun _ => true)
    (fun _ _ => rfl)

/-- C5, counterexample. On the committed registry, `arbitrum` has
`enable = false`: two sequential `createService` calls both succeed
(no intervening failure) yet return two distinct instances, because a
disabled network's instance is never cached. -/
theorem createService_identity_counterexample :
    (createService theRegistry true "arbitrum" initialFactoryState).1
      = Except.ok 0 ∧
    (createService theRegistry true "arbitrum"
        (createService theRegistry true "arbitrum" initialFactoryState).2).1
      = Except.ok 1 ∧
    (createService theRegistry true "arbitrum"
        (createService theRegistry true "arbitrum" initialFactoryState).2).1
      ≠ (createService theRegistry true "arbitrum" initialFactoryState).1 := by
  refine ⟨rfl, rfl, by decide⟩

/-- C5, amended: for every network id whose config has `enable = true`,
a second sequential `createService` call after a successful one returns
the identical cached instance and leaves the factory state untouched —
no construction, no initialization, no cache write. -/
theorem createService_cached_amended (R : Registry) (n : String)
    (s : FactoryState) (b1 b2 : Bool) (id1 : Nat) (s1 : FactoryState)
    (hen : (R.configs n).enable = true)
    (h1 : createService R b1 n s = (Except.ok id1, s1)) :
    createService R b2 n s1 = (Except.ok id1, s1) := by
  have hcache : List.lookup n s1.cache = some id1 := by
    unfold createService at h1
    dsimp only at h1
    split at h1
    · rename_i id hc
      simp only [Prod.mk.injEq, Except.ok.injEq] at h1
      obtain ⟨rfl, rfl⟩ := h1
      exact hc
    · split at h1 <;> (try split at h1)
      all_goals
        first
          | exact absurd hen (by assumption)
          | (simp at h1; done)
          | (injection h1 with h1a h1b
             injection h1a with h1c
             subst h1c
             subst h1b
             simp [List.lookup_cons])
  unfold createService
  rw [hcache]

/-- Witness for the amended C5 on the enabled `trc20` network. -/
theorem createService_cached_amended_witness :
    createService theRegistry false "trc20"
        (createService theRegistry true "trc20" initialFactoryState).2
      = (Except.ok 0,
         (createService theRegistry true "trc20" initialFactoryState).2) :=
  createService_cached_amended theRegistry "trc20" initialFactoryState
    true false 0
    (createService theRegistry true "trc20" initialFactoryState).2
    (by decide) (by decide)

/-- C6. Frame conditions of the two non-caching paths of
`createService` on an uncached known network: with `enable = false` the
call returns a freshly constructed instance while the cache and the
`initialize` log are left exactly as they were (no initialization, no
cache write); with `enable = true` and a failing `initialize` the call
surfaces the error, records the construction and the initialization
attempt but writes no cache entry, so the next call re-constructs from
scratch — it allocates a fresh instance, and (when its `initialize`
succeeds) returns and caches it. -/
theorem createService_noncaching_frame (R : Registry) (n : String)
    (s : FactoryState) (b : Bool) (hk : n ∈ R.known)
    (hc : List.lookup n s.cache = none) :
    ((R.configs n).enable = false →
      createService R b n s =
        (Except.ok s.nextId,
          { s with nextId := s.nextId + 1,
                   constructLog := (n, s.nextId) :: s.constructLog })) ∧
    ((R.configs n).enable = true →
      createService R false n s =
        (Except.error (CreateError.initFailed n),
          { s with nextId := s.nextId + 1,
                   constructLog := (n, s.nextId) :: s.constructLog,
                   initLog := (n, s.nextId) :: s.initLog }) ∧
      List.lookup n ((createService R false n s).2).cache = none ∧
      (createService R true n ((createService R false n s).2)).1
        = Except.ok ((createService R false n s).2).nextId ∧
      List.lookup n
          ((createService R true n ((createService R false n s).2)).2).cache
        = some ((createService R false n s).2).nextId) := by
  constructor
  · intro hen0
    unfold createService
    rw [hc]
    simp [hk, hen0]
  · intro hen
    have he1 : createService R false n s =
        (Except.error (CreateError.initFailed n),
          { s with nextId := s.nextId + 1,
                   constructLog := (n, s.nextId) :: s.constructLog,
                   initLog := (n, s.nextId) :: s.initLog }) := by
      unfold createService
      rw [hc]
      simp [hk, hen]
    have step : ∀ s' : FactoryState, List.lookup n s'.cache = none →
        createService R true n s' =
          (Except.ok s'.nextId,
            { s' with nextId := s'.nextId + 1,
                      constructLog := (n, s'.nextId) :: s'.constructLog,
                      initLog := (n, s'.nextId) :: s'.initLog,
                      cache := (n, s'.nextId) :: s'.cache }) := by
      intro s' hc'
      unfold createService
      rw [hc']
      simp [hk, hen]
    have h3 := step
      { s with nextId := s.nextId + 1,
               constructLog := (n, s.nextId) :: s.constructLog,
               initLog := (n, s.nextId) :: s.initLog } hc
    refine ⟨he1, ?_, ?_, ?_⟩
    · rw [he1]
      exact hc
    · rw [he1]
      dsimp only
      rw [h3]
    · rw [he1]
      dsimp only
      rw [h3]
      simp [List.lookup_cons]

/-- Witness for C6: the disabled `arbitrum` path and the failing-then-
succeeding `trc20` path on the committed registry. -/
theorem createService_noncaching_frame_witness :
    createService theRegistry true "arbitrum" initialFactoryState =
      (Except.ok 0,
        { initialFactoryState with
            nextId := 1, constructLog := [("arbitrum", 0)] }) ∧
    createService theRegistry false "trc20" initialFactoryState =
      (Except.error (CreateError.initFailed "trc20"),
        { initialFactoryState with
            nextId := 1, constructLog := [("trc20", 0)],
            initLog := [("trc20", 0)] }) :=
  ⟨(createService_noncaching_frame theRegistry "arbitrum" initialFactoryState
      true (by decide) rfl).1 (by decide),
   ((createService_noncaching_frame theRegistry "trc20" initialFactoryState
      false (by decide) rfl).2 (by decide)).1⟩

/-- C10. For any string that is not a registered network type and not
cached (an arbitrary name from the HTTP layer can never be cached),
`createService` throws the `Unsupported network type` error from the
`switch` default before constructing or initializing anything, and the
factory state — cache included — is returned exactly unchanged. -/
theorem createService_unsupported (R : Registry) (n : String) (b : Bool)
    (s : FactoryState) (hk : n ∉ R.known)
    (hc : List.lookup n s.cache = none) :
    createService R b n s = (Except.error (CreateError.unsupported n), s) ∧
    createErrorMessage (CreateError.unsupported n)
      = "Unsupported network type: " ++ n := by
  constructor
  · unfold createService
    rw [hc]
    simp [hk]
  · rfl

/-- Witness for C10 at the unregistered name `bitcoin`. -/
theorem createService_unsupported_witness :
    createService theRegistry true "bitcoin" initialFactoryState
      = (Except.error (CreateError.unsupported "bitcoin"),
         initialFactoryState) ∧
    createErrorMessage (CreateError.unsupported "bitcoin")
      = "Unsupported network type: " ++ "bitcoin" :=
  createService_unsupported theRegistry "bitcoin" true initialFactoryState
    (by decide) rfl

/-! ## Transaction status, address validation and wallet creation -/

/-- An XRPL node that knows no transactions. -/
def emptyRippleChain : RippleChain where
  knownTx := fun _ => none

/-- An Arbitrum node that knows no transactions. -/
def emptyArbChain : ArbChain where
  getTransaction := fun _ => Except.ok none
  getTransactionReceipt := fun _ => Except.ok none

/-- A Tron node that knows no transactions. -/
def emptyTronChain : TronChain where
  getTransaction := fun _ => Except.ok none
  getTransactionInfo := fun _ => Except.ok {}

/-- C7, counterexample. When the XRPL ledger reports a transaction
identifier as unknown, the xrpl `tx` request rejects with
`txnNotFound`, and `RippleService.getTransactionStatus` rethrows it via
`handleError` instead of returning a `failed` receipt. -/
theorem ripple_txstatus_counterexample :
    rippleGetTransactionStatus emptyRippleChain "ABCD"
      = Except.error "ripple getTransactionStatus failed: txnNotFound" ∧
    rippleGetTransactionStatus emptyRippleChain "ABCD"
      ≠ Except.ok { hash := "ABCD", status := TxStatus.failed } := by
  exact ⟨rfl, by decide⟩

/-- C7, amended: `getTransactionStatus` is an idempotent read (each
embedded operation is a pure function of the chain oracle and the
identifier; the source methods write no instance fields). On an unknown
identifier the Arbitrum and TRC20 adapters return a `failed` receipt
rather than an error, while the Ripple adapter instead surfaces the
`txnNotFound` rejection of the xrpl `tx` command as a thrown error. -/
theorem txstatus_unknown_amended (ca : ArbChain) (ct : TronChain)
    (cr : RippleChain) (h : String) :
    (ca.getTransaction h = Except.ok none →
      arbitrumGetTransactionStatus ca h
        = Except.ok { hash := h, status := TxStatus.failed }) ∧
    (ct.getTransaction h = Except.ok none →
      trc20GetTransactionStatus ct h
        = Except.ok { hash := h, status := TxStatus.failed }) ∧
    (∀ t, ct.getTransaction h = Except.ok (some t) → t.txID = none →
      trc20GetTransactionStatus ct h
        = Except.ok { hash := h, status := TxStatus.failed }) ∧
    (cr.knownTx h = none →
      rippleGetTransactionStatus cr h
        = Except.error
            (handleErrorMsg "ripple" "getTransactionStatus" "txnNotFound")) := by
  refine ⟨?_, ?_, ?_, ?_⟩
  · intro hu
    unfold arbitrumGetTransactionStatus
    rw [hu]
  · intro hu
    unfold trc20GetTransactionStatus
    rw [hu]
  · intro t ht hid
    unfold trc20GetTransactionStatus
    rw [ht]
    dsimp only
    rw [hid]
  · intro hu
    unfold rippleGetTransactionStatus rippleRequestTx
    rw [hu]

/-- Witness for the amended C7 on nodes that know no transactions. -/
theorem txstatus_unknown_amended_witness :
    arbitrumGetTransactionStatus emptyArbChain "h1"
      = Except.ok { hash := "h1", status := TxStatus.failed } ∧
    trc20GetTransactionStatus emptyTronChain "h1"
      = Except.ok { hash := "h1", status := TxStatus.failed } ∧
    rippleGetTransactionStatus emptyRippleChain "h1"
      = Except.error
          (handleErrorMsg "ripple" "getTransactionStatus" "txnNotFound") :=
  ⟨(txstatus_unknown_amended emptyArbChain emptyTronChain emptyRippleChain
      "h1").1 rfl,
   (txstatus_unknown_amended emptyArbChain emptyTronChain emptyRippleChain
      "h1").2.1 rfl,
   (txstatus_unknown_amended emptyArbChain emptyTronChain emptyRippleChain
      "h1").2.2.2 rfl⟩

/-- C8. `validateAddress` of the Arbitrum, TRC20 and Ripple adapters is
a total Boolean function of the address alone and never throws: every
outcome of the wrapped library predicate — including a thrown exception
— is caught, the Arbitrum/TRC20 handlers returning `false` and the
Ripple handler falling back to the syntactic XRP regex test. -/
theorem validateAddress_never_throws
    (f g k : String → Except String Bool) (address : String) :
    (∃ b, arbitrumValidateAddress f address = Except.ok b) ∧
    (∃ b, trc20ValidateAddress g address = Except.ok b) ∧
    (∃ b, rippleValidateAddress k address = Except.ok b) ∧
    (∀ e, f address = Except.error e →
      arbitrumValidateAddress f address = Except.ok false) ∧
    (∀ e, g address = Except.error e →
      trc20ValidateAddress g address = Except.ok false) ∧
    (∀ e, k address = Except.error e →
      rippleValidateAddress k address = Except.ok (xrpRegexTest address)) ∧
    (∀ b, f address = Except.ok b →
      arbitrumValidateAddress f address = Except.ok b) := by
  refine ⟨?_, ?_, ?_, ?_, ?_, ?_, ?_⟩
  · unfold arbitrumValidateAddress tryCatchE
    cases f address with
    | ok b => exact ⟨b, rfl⟩
    | error e => exact ⟨false, rfl⟩
  · unfold trc20ValidateAddress tryCatchE
    cases g address with
    | ok b => exact ⟨b, rfl⟩
    | error e => exact ⟨false, rfl⟩
  · unfold rippleValidateAddress tryCatchE
    cases k address with
    | ok b => exact ⟨b, rfl⟩
    | error e => exact ⟨xrpRegexTest address, rfl⟩
  · intro e he
    unfold arbitrumValidateAddress tryCatchE
    rw [he]
  · intro e he
    unfold trc20ValidateAddress tryCatchE
    rw [he]
  · intro e he
    unfold rippleValidateAddress tryCatchE
    rw [he]
  · intro b hb
    unfold arbitrumValidateAddress tryCatchE
    rw [hb]

/-- Witness for C8: a throwing library predicate is absorbed; the XRP
fallback regex accepts a well-formed classic address and rejects a
malformed one. -/
theorem validateAddress_never_throws_witness :
    arbitrumValidateAddress (fun _ => Except.error "boom") "0x12"
      = Except.ok false ∧
    rippleValidateAddress (fun _ => Except.error "boom")
        "rUocf1ixKzTuEe34kmVhRvGqNCofY1NJzV"
      = Except.ok
          (xrpRegexTest "rUocf1ixKzTuEe34kmVhRvGqNCofY1NJzV") ∧
    xrpRegexTest "rUocf1ixKzTuEe34kmVhRvGqNCofY1NJzV" = true ∧
    xrpRegexTest "not-an-address" = false :=
  ⟨(validateAddress_never_throws (fun _ => Except.error "boom")
      (fun _ => Except.error "boom") (fun _ => Except.error "boom")
      "0x12").2.2.2.1 "boom" rfl,
   (validateAddress_never_throws (fun _ => Except.error "boom")
      (fun _ => Except.error "boom") (fun _ => Except.error "boom")
      "rUocf1ixKzTuEe34kmVhRvGqNCofY1NJzV").2.2.2.2.2.1 "boom" rfl,
   by decide, by decide⟩

/-- C9. `createWallet` determinism and freshness for the Cardano and
Ripple adapters. With a mnemonic supplied (and whatever index and
derivation-path option), the result — address, publicKey and privateKey
included — is independent of the per-call fresh entropy, so two calls
agree exactly. With no mnemonic, the output is determined by the fresh
entropy alone: a Cardano call behaves exactly as a call on its freshly
generated mnemonic (so two calls whose fresh mnemonics differ return
distinguishable results), and a Ripple call with no index returns the
freshly generated wallet verbatim, so two calls whose generated wallets
have different addresses return different addresses. -/
theorem createWallet_determinism (cl : CardanoLib) (rl : RippleLib)
    (e1 e2 : Nat) (f1 f2 : String) (options : CreateWalletOptionsM) :
    (∀ m, options.mnemonic = some m →
      cardanoCreateWallet cl f1 options = cardanoCreateWallet cl f2 options ∧
      rippleCreateWallet rl e1 options = rippleCreateWallet rl e2 options) ∧
    (options.mnemonic = none →
      cardanoCreateWallet cl f1 options
        = cardanoCreateWallet cl f1 { options with mnemonic := some f1 } ∧
      (∀ w1 w2, cardanoCreateWallet cl f1 options = Except.ok w1 →
        cardanoCreateWallet cl f2 options = Except.ok w2 →
        f1 ≠ f2 → w1 ≠ w2)) ∧
    (options.mnemonic = none → options.index = none →
      rippleCreateWallet rl e1 options =
        Except.ok
          { address := (rl.generateWallet e1).address,
            seed := (rl.generateWallet e1).seed,
            publicKey := some (rl.generateWallet e1).publicKey,
            privateKey := some (rl.generateWallet e1).privateKey,
            mnemonic := none, network := "ripple" } ∧
      ((rl.generateWallet e1).address ≠ (rl.generateWallet e2).address →
        ∀ w1 w2, rippleCreateWallet rl e1 options = Except.ok w1 →
          rippleCreateWallet rl e2 options = Except.ok w2 →
          w1.address ≠ w2.address)) := by
  refine ⟨?_, ?_, ?_⟩
  · intro m hm
    constructor
    · unfold cardanoCreateWallet
      rw [hm]
    · unfold rippleCreateWallet
      rw [hm]
  · intro hm
    have hfresh : ∀ f : String,
        cardanoCreateWallet cl f options
          = cardanoCreateWallet cl f { options with mnemonic := some f } := by
      intro f
      unfold cardanoCreateWallet
      rw [hm]
    refine ⟨hfresh f1, ?_⟩
    intro w1 w2 h1 h2 hne
    have hm1 : w1.mnemonic = some f1 := by
      unfold cardanoCreateWallet at h1
      rw [hm] at h1
      dsimp only at h1
      cases hcw : createWalletFromMnemonic cl f1 with
      | error e => rw [hcw] at h1; cases h1
      | ok wd =>
        rw [hcw] at h1
        dsimp only at h1
        cases h1
        rfl
    have hm2 : w2.mnemonic = some f2 := by
      unfold cardanoCreateWallet at h2
      rw [hm] at h2
      dsimp only at h2
      cases hcw : createWalletFromMnemonic cl f2 with
      | error e => rw [hcw] at h2; cases h2
      | ok wd =>
        rw [hcw] at h2
        dsimp only at h2
        cases h2
        rfl
    intro hw
    apply hne
    have : some f1 = some f2 := by rw [← hm1, ← hm2, hw]
    exact Option.some.injEq .. ▸ this
  · intro hm hi
    have heq : ∀ e : Nat,
        rippleCreateWallet rl e options =
          Except.ok
            { address := (rl.generateWallet e).address,
              seed := (rl.generateWallet e).seed,
              publicKey := some (rl.generateWallet e).publicKey,
              privateKey := some (rl.generateWallet e).privateKey,
              mnemonic := none, network := "ripple" } := by
      intro e
      unfold rippleCreateWallet
      rw [hm, hi]
    refine ⟨heq e1, ?_⟩
    intro haddr w1 w2 h1 h2
    rw [heq e1] at h1
    rw [heq e2] at h2
    cases h1
    cases h2
    exact haddr

/-- A concrete deterministic Cardano library for the C9 witness. -/
def cLibW : CardanoLib where
  mnemonicToEntropy := fun s => Except.ok [s.length]
  fromBip39Entropy := fun l => l.foldl (fun a b => a + b) 0
  deriveKey := fun key i => key * 2 + i
  toRawKey := fun key => key + 1
  toPublic := fun key => key + 2
  keyHash := fun key => key + 3
  baseAddressBech32 := fun key => "addr" ++ toString key
  privHex := fun key => toString key
  pubHex := fun key => toString key

/-- A concrete deterministic Ripple library for the C9 witness. -/
def rLibW : RippleLib where
  mnemonicToSeedHex := fun s => s ++ "-seed"
  derivePathKeyHex := fun _ s => s ++ "-k"
  fromSeed := fun s =>
    Except.ok { address := "r" ++ s, publicKey := s, privateKey := s,
                seed := some s }
  generateMnemonic := fun e => "m" ++ toString e
  generateWallet := fun e =>
    { address := "rg" ++ toString e, publicKey := "p", privateKey := "k",
      seed := none }

/-- Witness for C9: two calls with the same mnemonic and index but
different fresh entropy agree on both adapters. -/
theorem createWallet_determinism_witness :
    cardanoCreateWallet cLibW "fresh1" { mnemonic := some "word", index := some 1 }
      = cardanoCreateWallet cLibW "fresh2" { mnemonic := some "word", index := some 1 } ∧
    rippleCreateWallet rLibW 1 { mnemonic := some "word", index := some 1 }
      = rippleCreateWallet rLibW 2 { mnemonic := some "word", index := some 1 } :=
  (createWallet_determinism cLibW rLibW 1 2 "fresh1" "fresh2"
    { mnemonic := some "word", index := some 1 }).1 "word" rfl

end CryptoNet
